import Mathlib

/-!
Verification of `catalog-service/app/database.py`.

The module under study is SQLAlchemy configuration glue: it loads the
process environment (with a `.env` fallback), builds one engine with a
bounded connection pool, builds a session factory, provides a per-request
session generator `get_db`, and a startup probe
`verify_database_connection`.  We give a shallow embedding of the module
and of the (documented) behaviour of the library calls it makes, and prove
the connection-lifecycle contract over it.
-/

namespace DatabasePy

/-! ## Exceptions and outcomes

Python exceptions are modelled by their message; a computation either
returns a value or raises. -/

/-- A Python exception, identified by its message string. -/
structure Exc where
  msg : String
deriving DecidableEq, Repr

/-- Outcome of a Python computation: a value, or a raised exception. -/
inductive Outcome (α : Type) where
  | ok : α → Outcome α
  | raised : Exc → Outcome α
deriving DecidableEq, Repr

/-! ## Process environment and `load_dotenv`

The process environment is an association list from variable names to
values; `os.getenv` is lookup of the first binding. -/

/-- The process environment variables, in lookup order. -/
abbrev Env := List (String × String)

/-- `os.getenv`: the value of the first binding of the name, if any. -/
def Env.get : Env → String → Option String
  | [], _ => none
  | (k, v) :: rest, key => if k = key then some v else Env.get rest key

/-- `load_dotenv()` from python-dotenv with its default `override=False`:
each key/value pair of the `.env` file is applied in order, and a variable
already present in the process environment is left untouched; an absent
variable is populated from the file.  The file is taken to bind each key
at most once, as a `.env` file does; on such files this agrees with the
library, which first collapses the file into a dictionary. -/
def load_dotenv (env : Env) : List (String × String) → Env
  | [] => env
  | kv :: rest =>
      load_dotenv (if (env.get kv.1).isSome then env else env ++ [kv]) rest

/-! ## Module-level configuration (lines 17-55 of `database.py`)

At import time the module runs `load_dotenv()`, reads `DATABASE_URL`,
raises `ValueError` when it is falsy (absent or the empty string), and
otherwise constructs the engine with `pool_pre_ping=True`, `pool_size=5`,
`max_overflow=10` and `echo` set exactly when the `ENVIRONMENT` variable
equals `"development"`. -/

/-- Python truthiness of an `Optional[str]`: `None` and `""` are falsy. -/
def strTruthy : Option String → Bool
  | none => false
  | some s => !(s = "")

/-- The `ValueError` message raised when `DATABASE_URL` is not configured. -/
def databaseUrlErrorMsg : String :=
  "La variable DATABASE_URL no esta configurada. " ++
  "Verifica que tu archivo .env existe y tiene el valor correcto"

/-- The arguments `database.py` passes to `create_engine`. -/
structure EngineConfig where
  url : String
  pool_pre_ping : Bool
  pool_size : Nat
  max_overflow : Nat
  echo : Bool
deriving DecidableEq, Repr

/-- The module body of `database.py` up to `create_engine`: load the
`.env` file into the environment, read `DATABASE_URL`, fail fast with a
`ValueError` when it is falsy, else build the engine configuration. -/
def moduleInit (fileVars : List (String × String)) (env0 : Env) :
    Outcome EngineConfig :=
  let env := load_dotenv env0 fileVars
  match env.get "DATABASE_URL" with
  | none => .raised ⟨databaseUrlErrorMsg⟩
  | some url =>
      if url = "" then .raised ⟨databaseUrlErrorMsg⟩
      else
        .ok { url := url
              pool_pre_ping := true
              pool_size := 5
              max_overflow := 10
              echo := env.get "ENVIRONMENT" == some "development" }

/-! ## Session factory (`SessionLocal`, lines 77-81) -/

/-- The keyword arguments `database.py` passes to `sessionmaker`. -/
structure SessionmakerConfig where
  autocommit : Bool
  autoflush : Bool
deriving DecidableEq, Repr

/-- `SessionLocal = sessionmaker(autocommit=False, autoflush=False,
bind=engine)`. -/
def SessionLocal : SessionmakerConfig :=
  { autocommit := false, autoflush := false }

/-! ## Session write buffering

Documented SQLAlchemy session behaviour, parameterised by the
`sessionmaker` flags: writes accumulate in the in-memory unit-of-work
buffer; `flush` sends the buffer to the database; `commit` flushes and
makes the sent statements durable; with `autoflush` a query first flushes;
with (legacy) `autocommit` each flush also commits.  `database.py` fixes
both flags to `False`. -/

/-- Observable state of one session. -/
structure SessionState where
  /-- Writes held in the in-memory unit-of-work buffer. -/
  buffered : List String
  /-- Statements that have been sent to the database connection. -/
  sentToDb : List String
  /-- Writes made durable by a commit. -/
  committed : List String
deriving DecidableEq, Repr

/-- A fresh session: nothing buffered, sent or committed. -/
def SessionState.fresh : SessionState := ⟨[], [], []⟩

/-- Operations a caller can issue on a session. -/
inductive SessionOp where
  | write : String → SessionOp
  | query : SessionOp
  | flush : SessionOp
  | commit : SessionOp
deriving DecidableEq, Repr

/-- Send the buffer to the database. -/
def SessionState.doFlush (s : SessionState) : SessionState :=
  { s with buffered := [], sentToDb := s.sentToDb ++ s.buffered }

/-- Flush, then make everything sent durable. -/
def SessionState.doCommit (s : SessionState) : SessionState :=
  let f := s.doFlush
  { f with committed := f.sentToDb }

/-- One step of the session, under the `sessionmaker` flags. -/
def stepSession (cfg : SessionmakerConfig) (s : SessionState) :
    SessionOp → SessionState
  | .write w =>
      let s := { s with buffered := s.buffered ++ [w] }
      if cfg.autocommit then s.doCommit else s
  | .query => if cfg.autoflush then s.doFlush else s
  | .flush => s.doFlush
  | .commit => s.doCommit

/-- Run a sequence of session operations from a state. -/
def runSession (cfg : SessionmakerConfig) (s : SessionState) :
    List SessionOp → SessionState
  | [] => s
  | op :: ops => runSession cfg (stepSession cfg s op) ops

/-- Whether an operation explicitly asks the session to talk to the
database. -/
def SessionOp.isExplicitSend : SessionOp → Bool
  | .flush => true
  | .commit => true
  | _ => false

/-! ## The session provider `get_db` (lines 98-129)

```
db = SessionLocal()
try:
    yield db
finally:
    db.close()
```

The generator is driven by a caller whose unit of work either completes or
raises; `db.close()` itself may succeed or raise (e.g. pool already torn
down).  Per Python semantics the `finally` block always runs, and an
exception raised inside `finally` propagates in place of any pending
one. -/

/-- How the caller's unit of work ends. -/
inductive BodyResult where
  | completes : BodyResult
  | raises : Exc → BodyResult
deriving DecidableEq, Repr

/-- How `db.close()` behaves when the cleanup runs. -/
inductive CloseBehavior where
  | succeeds : CloseBehavior
  | raises : Exc → CloseBehavior
deriving DecidableEq, Repr

/-- An effectful step: the events it performs, in order, and its
outcome. -/
structure Effectful (α : Type) where
  events : List String
  result : Outcome α
deriving DecidableEq, Repr

/-- Python `try: ... finally: ...`: the cleanup runs after the guarded
body on every exit, whether the body completed or raised; an exception
raised by the cleanup itself propagates onward, and otherwise the body
outcome stands. -/
def tryFinally {α : Type} (body : Effectful α) (cleanup : Effectful Unit) :
    Effectful α :=
  { events := body.events ++ cleanup.events
    result :=
      match cleanup.result with
      | .raised ce => .raised ce
      | .ok _ => body.result }

/-- The unit of work the caller runs on the yielded session. -/
def bodyStep : BodyResult → Effectful Unit
  | .completes => ⟨["unit-of-work"], .ok ()⟩
  | .raises e => ⟨["unit-of-work"], .raised e⟩

/-- The `db.close()` call of the cleanup block. -/
def closeStep : CloseBehavior → Effectful Unit
  | .succeeds => ⟨["db.close"], .ok ()⟩
  | .raises ce => ⟨["db.close"], .raised ce⟩

/-- A full drive of the `get_db` generator: create the session, yield it
to the caller's unit of work inside `try`, and run `db.close()` in the
`finally` block. -/
def run_get_db (body : BodyResult) (close : CloseBehavior) : Effectful Unit :=
  tryFinally (bodyStep body) (closeStep close)

/-! ## Connection pool (`create_engine`, lines 32-55)

Documented behaviour of the SQLAlchemy `QueuePool` under the configured
`pool_size`/`max_overflow`: a checkout reuses an idle connection when one
exists and may open a fresh physical connection only while the total of
open connections is below `pool_size + max_overflow`; a checkin returns
the connection to the idle set up to `pool_size` idle connections and
closes it beyond that.  `pool_pre_ping` may discard-and-replace an idle
connection, which leaves the count unchanged. -/

/-- State of the pool: connections checked out plus idle ones. -/
structure PoolState where
  inUse : Nat
  idle : Nat
deriving DecidableEq, Repr

/-- All physical connections currently open. -/
def PoolState.openConns (s : PoolState) : Nat := s.inUse + s.idle

/-- The hard cap on open connections the engine is configured with. -/
def EngineConfig.poolCap (cfg : EngineConfig) : Nat :=
  cfg.pool_size + cfg.max_overflow

/-- One pool transition under an engine configuration. -/
inductive PoolStep (cfg : EngineConfig) : PoolState → PoolState → Prop
  | checkoutIdle (u i : Nat) :
      PoolStep cfg ⟨u, i + 1⟩ ⟨u + 1, i⟩
  | checkoutFresh (u i : Nat) :
      u + i < cfg.poolCap → PoolStep cfg ⟨u, i⟩ ⟨u + 1, i⟩
  | checkinKeep (u i : Nat) :
      i < cfg.pool_size → PoolStep cfg ⟨u + 1, i⟩ ⟨u, i + 1⟩
  | checkinClose (u i : Nat) :
      cfg.pool_size ≤ i → PoolStep cfg ⟨u + 1, i⟩ ⟨u, i⟩

/-- The pool starts empty (`create_engine` opens no connection) and
evolves by pool transitions. -/
def PoolReachable (cfg : EngineConfig) (s : PoolState) : Prop :=
  Relation.ReflTransGen (PoolStep cfg) ⟨0, 0⟩ s

/-! ## The startup probe `verify_database_connection` (lines 135-151)

```
try:
    with engine.connect() as connection:
        connection.execute(text("SELECT 1"))
    return True
except Exception as e:
    print(f"Error conectando a la base de datos: {e}")
    return False
```

The environment can make `engine.connect()` raise, make the `execute`
raise, or let both succeed. -/

/-- How the database behaves when the probe runs. -/
inductive ProbeBehavior where
  | connectRaises : Exc → ProbeBehavior
  | executeRaises : Exc → ProbeBehavior
  | succeeds : ProbeBehavior
deriving DecidableEq, Repr

/-- Trace of the scoped connection inside the `with` block. -/
structure ConnTrace where
  /-- `engine.connect()` returned a connection. -/
  opened : Bool
  /-- That connection was released before the block was left. -/
  closed : Bool
  /-- Value or exception the `with` block delivers. -/
  result : Outcome Unit
deriving DecidableEq, Repr

/-- `with engine.connect() as connection: connection.execute(...)`:
if `connect` raises, no connection ever exists; once a connection exists
the context manager releases it when the block is left, before any
exception from the body propagates onward. -/
def withConnectExecute : ProbeBehavior → ConnTrace
  | .connectRaises e => { opened := false, closed := false, result := .raised e }
  | .executeRaises e => { opened := true, closed := true, result := .raised e }
  | .succeeds => { opened := true, closed := true, result := .ok () }

/-- Trace of one call of `verify_database_connection`. -/
structure ProbeRun where
  conn : ConnTrace
  /-- Lines printed to diagnostic output. -/
  logged : List String
  /-- What the call delivers to its caller. -/
  retval : Outcome Bool
deriving DecidableEq, Repr

/-- The diagnostic line the probe prints on failure. -/
def probeErrorLine (e : Exc) : String :=
  "Error conectando a la base de datos: " ++ e.msg

/-- `verify_database_connection`: run the `with` block; on success return
`True`; any exception is caught by the bare `except Exception`, its
message printed, and `False` returned. -/
def verify_database_connection (b : ProbeBehavior) : ProbeRun :=
  let t := withConnectExecute b
  match t.result with
  | .ok _ => { conn := t, logged := [], retval := .ok true }
  | .raised e =>
      { conn := t, logged := [probeErrorLine e], retval := .ok false }

/-! ## Helper lemmas -/

/-- Lookup in an appended environment: the earlier bindings win. -/
theorem Env.get_append (env l : Env) (k : String) :
    (env ++ l).get k = (env.get k).or (l.get k) := by
  induction env with
  | nil => simp [Env.get]
  | cons kv rest ih =>
      obtain ⟨k0, v0⟩ := kv
      by_cases hk : k0 = k <;> simp [Env.get, hk, ih]

/-- `load_dotenv` leaves a variable already present in the environment
untouched. -/
theorem load_dotenv_get_of_isSome (file : List (String × String))
    (env : Env) (k : String) (h : (env.get k).isSome) :
    (load_dotenv env file).get k = env.get k := by
  induction file generalizing env with
  | nil => rfl
  | cons kv rest ih =>
      simp only [load_dotenv]
      by_cases hs : (env.get kv.1).isSome
      · rw [if_pos hs]; exact ih env h
      · rw [if_neg hs]
        have hg : (env ++ [kv]).get k = env.get k := by
          rw [Env.get_append]
          cases he : env.get k with
          | none => rw [he] at h; simp at h
          | some v => simp
        rw [ih (env ++ [kv]) (by rw [hg]; exact h), hg]

/-- `load_dotenv` populates a variable absent from the environment with
its first value in the file. -/
theorem load_dotenv_get_of_none (file : List (String × String))
    (env : Env) (k : String) (h : env.get k = none) :
    (load_dotenv env file).get k = Env.get file k := by
  induction file generalizing env with
  | nil => simpa [load_dotenv, Env.get] using h
  | cons kv rest ih =>
      obtain ⟨k0, v0⟩ := kv
      simp only [load_dotenv]
      by_cases hk : k0 = k
      · subst hk
        have hs : ¬ ((env.get k0).isSome) := by rw [h]; simp
        rw [if_neg hs]
        have hg : (env ++ [(k0, v0)]).get k0 = some v0 := by
          rw [Env.get_append, h]; simp [Env.get]
        rw [load_dotenv_get_of_isSome rest (env ++ [(k0, v0)]) k0
          (by rw [hg]; simp), hg]
        simp [Env.get]
      · have hstep : ∀ env2 : Env, env2 = env ∨ env2 = env ++ [(k0, v0)] →
            env2.get k = none := by
          rintro env2 (rfl | rfl)
          · exact h
          · rw [Env.get_append, h]; simp [Env.get, hk]
        by_cases hs : (env.get k0).isSome
        · rw [if_pos hs, ih env h]
          simp [Env.get, hk]
        · rw [if_neg hs, ih (env ++ [(k0, v0)]) (hstep _ (Or.inr rfl))]
          simp [Env.get, hk]

/-- One pool transition cannot push the open-connection count past the
configured cap. -/
theorem poolStep_preserves_cap (cfg : EngineConfig) {s t : PoolState}
    (h : PoolStep cfg s t) (hs : s.openConns ≤ cfg.poolCap) :
    t.openConns ≤ cfg.poolCap := by
  cases h with
  | checkoutIdle u i =>
      simp only [PoolState.openConns] at hs ⊢; omega
  | checkoutFresh u i hlt =>
      simp only [PoolState.openConns] at hs ⊢; omega
  | checkinKeep u i _ =>
      simp only [PoolState.openConns] at hs ⊢; omega
  | checkinClose u i _ =>
      simp only [PoolState.openConns] at hs ⊢; omega

/-- Every reachable pool state respects the configured cap. -/
theorem poolReachable_le_cap (cfg : EngineConfig) (s : PoolState)
    (h : PoolReachable cfg s) : s.openConns ≤ cfg.poolCap := by
  induction h with
  | refl => simp [PoolState.openConns]
  | tail _ step ih => exact poolStep_preserves_cap cfg step ih

/-- Destructing a successful module import: the engine configuration it
builds, in terms of the loaded environment. -/
theorem moduleInit_ok (file : List (String × String)) (env : Env)
    (cfg : EngineConfig) (h : moduleInit file env = .ok cfg) :
    cfg = { url := ((load_dotenv env file).get "DATABASE_URL").getD ""
            pool_pre_ping := true
            pool_size := 5
            max_overflow := 10
            echo := (load_dotenv env file).get "ENVIRONMENT"
              == some "development" } := by
  cases hu : (load_dotenv env file).get "DATABASE_URL" with
  | none => simp only [moduleInit, hu] at h; simp at h
  | some url =>
      simp only [moduleInit, hu] at h
      by_cases hurl : url = ""
      · rw [if_pos hurl] at h; simp at h
      · rw [if_neg hurl] at h
        cases h
        simp

/-- A session step that is neither a flush nor a commit sends nothing and
commits nothing under the `SessionLocal` flags. -/
theorem stepSession_no_send (s : SessionState) (op : SessionOp)
    (h : op.isExplicitSend = false) :
    (stepSession SessionLocal s op).sentToDb = s.sentToDb ∧
    (stepSession SessionLocal s op).committed = s.committed := by
  cases op with
  | write w => exact ⟨rfl, rfl⟩
  | query => exact ⟨rfl, rfl⟩
  | flush => simp [SessionOp.isExplicitSend] at h
  | commit => simp [SessionOp.isExplicitSend] at h

/-- A run of flush-free, commit-free operations sends nothing and commits
nothing under the `SessionLocal` flags. -/
theorem runSession_no_send (ops : List SessionOp) (s : SessionState)
    (h : ∀ op ∈ ops, op.isExplicitSend = false) :
    (runSession SessionLocal s ops).sentToDb = s.sentToDb ∧
    (runSession SessionLocal s ops).committed = s.committed := by
  induction ops generalizing s with
  | nil => exact ⟨rfl, rfl⟩
  | cons op ops ih =>
      have h0 : op.isExplicitSend = false := h op (by simp)
      have hrest : ∀ o ∈ ops, o.isExplicitSend = false :=
        fun o ho => h o (by simp [ho])
      have hstep := stepSession_no_send s op h0
      have hrun := ih (stepSession SessionLocal s op) hrest
      exact ⟨hrun.1.trans hstep.1, hrun.2.trans hstep.2⟩

/-! ## Claim theorems -/

/-- C1: every invocation of `get_db` closes the session it yields when the
unit of work ends, on every exit path — both when the unit of work
completes normally and when it raises. -/
theorem get_db_closes_on_every_path (body : BodyResult)
    (close : CloseBehavior) :
    "db.close" ∈ (run_get_db body close).events := by
  cases body <;> cases close <;>
    simp [run_get_db, tryFinally, bodyStep, closeStep]

/-- C2: `verify_database_connection` returns `true` exactly when the
connect-and-execute sequence succeeds and `false` when any exception is
raised during it; it never propagates an exception, and on the failure
path it prints the underlying exception message to diagnostic output. -/
theorem verify_returns_bool_never_raises (b : ProbeBehavior) :
    (verify_database_connection b).retval = .ok (decide (b = .succeeds)) ∧
    (verify_database_connection b).logged =
      (match b with
       | .succeeds => []
       | .connectRaises e => [probeErrorLine e]
       | .executeRaises e => [probeErrorLine e]) := by
  cases b <;> exact ⟨rfl, rfl⟩

/-- C3: module import fails with the descriptive `ValueError` exactly when
`DATABASE_URL` is missing or empty after the `.env` fallback was loaded,
and succeeds otherwise. -/
theorem moduleInit_fail_fast (file : List (String × String)) (env : Env) :
    (strTruthy ((load_dotenv env file).get "DATABASE_URL") = false →
      moduleInit file env = .raised ⟨databaseUrlErrorMsg⟩) ∧
    (strTruthy ((load_dotenv env file).get "DATABASE_URL") = true →
      ∃ cfg : EngineConfig, moduleInit file env = .ok cfg) := by
  constructor
  · intro h
    cases hu : (load_dotenv env file).get "DATABASE_URL" with
    | none => simp [moduleInit, hu]
    | some url =>
        rw [hu] at h
        have hurl : url = "" := by simpa [strTruthy] using h
        simp [moduleInit, hu, hurl]
  · intro h
    cases hu : (load_dotenv env file).get "DATABASE_URL" with
    | none => rw [hu] at h; simp [strTruthy] at h
    | some url =>
        rw [hu] at h
        have hne : ¬ url = "" := by simpa [strTruthy] using h
        exact ⟨{ url := url, pool_pre_ping := true, pool_size := 5,
                 max_overflow := 10,
                 echo := (load_dotenv env file).get "ENVIRONMENT"
                   == some "development" },
               by simp [moduleInit, hu, hne]⟩

/-- C4: the engine is configured with 5 base connections and 10 overflow
connections, and no reachable pool state holds more than 15 concurrently
open physical connections. -/
theorem pool_never_exceeds_fifteen (file : List (String × String))
    (env : Env) (cfg : EngineConfig) (h : moduleInit file env = .ok cfg) :
    cfg.pool_size = 5 ∧ cfg.max_overflow = 10 ∧
      ∀ s : PoolState, PoolReachable cfg s → s.openConns ≤ 15 := by
  have hc := moduleInit_ok file env cfg h
  subst hc
  refine ⟨rfl, rfl, fun s hs => ?_⟩
  simpa [EngineConfig.poolCap] using poolReachable_le_cap _ s hs

/-- Witness for C4: a concrete import yields exactly this configuration,
and the empty pool is reachable with at most 15 open connections. -/
theorem pool_never_exceeds_fifteen_witness :
    ({ url := "postgresql://cat", pool_pre_ping := true, pool_size := 5,
       max_overflow := 10, echo := false } : EngineConfig).pool_size = 5 ∧
    ({ url := "postgresql://cat", pool_pre_ping := true, pool_size := 5,
       max_overflow := 10, echo := false } : EngineConfig).max_overflow = 10 ∧
    ∀ s : PoolState,
      PoolReachable
        ({ url := "postgresql://cat", pool_pre_ping := true,
           pool_size := 5, max_overflow := 10, echo := false } : EngineConfig)
        s →
      s.openConns ≤ 15 :=
  pool_never_exceeds_fifteen [] [("DATABASE_URL", "postgresql://cat")] _
    (by decide)

/-- C5: the engine echoes queries exactly when the `ENVIRONMENT` variable
read at startup equals `"development"`; for every other value, including
the variable being unset, it is silent. -/
theorem echo_iff_development (file : List (String × String)) (env : Env)
    (cfg : EngineConfig) (h : moduleInit file env = .ok cfg) :
    cfg.echo = true ↔
      (load_dotenv env file).get "ENVIRONMENT" = some "development" := by
  have hc := moduleInit_ok file env cfg h
  subst hc
  simp

/-- Witness for C5 at a concrete environment that sets `ENVIRONMENT` to
`"development"`. -/
theorem echo_iff_development_witness :
    ({ url := "postgresql://cat", pool_pre_ping := true, pool_size := 5,
       max_overflow := 10, echo := true } : EngineConfig).echo = true ↔
      (load_dotenv
        [("DATABASE_URL", "postgresql://cat"),
         ("ENVIRONMENT", "development")] []).get "ENVIRONMENT" =
        some "development" :=
  echo_iff_development []
    [("DATABASE_URL", "postgresql://cat"), ("ENVIRONMENT", "development")] _
    (by decide)

/-- C6: `SessionLocal` is built with `autocommit=False` and
`autoflush=False`, so a run of writes and queries with no explicit flush
or commit sends nothing to the database and commits nothing. -/
theorem sessionLocal_buffers_until_explicit (ops : List SessionOp)
    (h : ∀ op ∈ ops, op.isExplicitSend = false) :
    SessionLocal.autocommit = false ∧ SessionLocal.autoflush = false ∧
    (runSession SessionLocal SessionState.fresh ops).sentToDb = [] ∧
    (runSession SessionLocal SessionState.fresh ops).committed = [] := by
  have hr := runSession_no_send ops SessionState.fresh h
  exact ⟨rfl, rfl, hr.1, hr.2⟩

/-- Witness for C6: a concrete write followed by a query reaches the
database in no way. -/
theorem sessionLocal_buffers_until_explicit_witness :
    SessionLocal.autocommit = false ∧ SessionLocal.autoflush = false ∧
    (runSession SessionLocal SessionState.fresh
      [SessionOp.write "INSERT", SessionOp.query]).sentToDb = [] ∧
    (runSession SessionLocal SessionState.fresh
      [SessionOp.write "INSERT", SessionOp.query]).committed = [] :=
  sessionLocal_buffers_until_explicit
    [SessionOp.write "INSERT", SessionOp.query] (by decide)

/-- C7: `load_dotenv` never overwrites a variable already present in the
process environment, and populates an absent variable with its first value
from the file. -/
theorem load_dotenv_env_precedence (file : List (String × String))
    (env : Env) (k : String) :
    ((env.get k).isSome →
      (load_dotenv env file).get k = env.get k) ∧
    (env.get k = none →
      (load_dotenv env file).get k = Env.get file k) :=
  ⟨load_dotenv_get_of_isSome file env k, load_dotenv_get_of_none file env k⟩

/-- C8: when `db.close()` itself fails during the cleanup of `get_db`,
that failure is not caught and propagates to the caller, whichever way the
unit of work ended. -/
theorem close_failure_propagates (body : BodyResult) (ce : Exc) :
    (run_get_db body (.raises ce)).result = .raised ce ∧
    "db.close" ∈ (run_get_db body (.raises ce)).events := by
  cases body <;>
    exact ⟨rfl, by simp [run_get_db, tryFinally, bodyStep, closeStep]⟩

/-- C9: when the unit of work raises and the close succeeds, `get_db`
closes the session and re-raises the very same exception to the outer
caller, unchanged. -/
theorem body_exception_reraised (e : Exc) :
    (run_get_db (.raises e) .succeeds).result = .raised e ∧
    "db.close" ∈ (run_get_db (.raises e) .succeeds).events :=
  ⟨rfl, by simp [run_get_db, tryFinally, bodyStep, closeStep]⟩

/-- C10: the probe connection is released exactly when it was opened, on
both outcomes; in particular a failing probe query still releases the
connection and the call returns `false`. -/
theorem probe_releases_connection (b : ProbeBehavior) (e : Exc) :
    ((verify_database_connection b).conn.closed =
      (verify_database_connection b).conn.opened) ∧
    ((verify_database_connection (.executeRaises e)).conn.closed = true ∧
     (verify_database_connection (.executeRaises e)).retval = .ok false) := by
  cases b <;> exact ⟨rfl, rfl, rfl⟩

end DatabasePy
